import Mathlib

/-!
Shallow embedding of undercrawler's autologin middleware
(src/undercrawler/middleware/autologin.py) together with proofs about its
session state machine, pending queue, logout detection and cookie handling.

Python dictionaries, lists and exceptions are embedded as association lists,
Lean lists and explicit error results.  Methods of the middleware become pure
functions from the middleware state (and their inputs) to a new state plus an
explicit result; calls to the crawl engine become explicit effects.
-/

namespace Undercrawler

/-- Cookie record as handled by the middleware: the fields read or written by
the source are name and value; records coming from the login service may also
carry path, domain and arbitrary further fields (embedded as an association
list in field extra), which the normalizer discards. -/
structure RawCookie where
  name : String
  value : String
  path : Option String := none
  domain : Option String := none
  extra : List (String × String) := []
deriving DecidableEq

/-- An entry of a response's cookiejar, of which the source reads the
attributes name and value. -/
structure Morsel where
  name : String
  value : String
deriving DecidableEq

/-- Body of the POST request built by AutologinMiddleware._login_request
(the params dictionary serialized as JSON). -/
structure LoginParams where
  url : String
  username : Option String
  password : Option String
  splash_url : Option String
  robots_obey : Bool
  user_agent : Option String
  download_delay : Option String
deriving DecidableEq

/-- A request as it stands without the middleware's own envelope: url, cookie
list, scrapy's dont_filter de-duplication bypass flag, whether a
callback/errback is attached, the request body, and the two meta entries the
middleware reads on arbitrary requests (skip_autologin and autologin_active).
This is also the shape of the snapshot stored in the envelope: the snapshot is
created only for requests that passed the gate's first guard, hence never
itself carries an envelope. -/
structure BaseRequest where
  url : String
  cookies : List RawCookie := []
  dontFilter : Bool := false
  hasCallback : Bool := false
  body : Option LoginParams := none
  metaSkip : Bool := false
  metaActive : Option Bool := none
deriving DecidableEq

/-- Value of request.meta of the source, key _autologin: the saved original
request and, when auth cookies were attached, the cookie_dict mapping of
cookie name to value (an association list; absent key models a Python dict
without that key). -/
structure AutologinMeta where
  request : BaseRequest
  cookie_dict : Option (List (String × String)) := none
deriving DecidableEq

/-- A full request: a base request possibly carrying the _autologin meta
envelope. -/
structure Request extends BaseRequest where
  metaAutologin : Option AutologinMeta := none
deriving DecidableEq

/-- A response as read by the middleware: its url and, when the attribute is
present and not None, its cookiejar. -/
structure Response where
  url : String
  cookiejar : Option (List Morsel) := none
deriving DecidableEq

/-- Python dict lookup on an association list built by successive insertion:
the last binding of a key wins, a missing key yields none (dict.get). -/
def dictGet (d : List (String × String)) (k : String) : Option String :=
  d.foldl (fun acc p => if p.1 = k then some p.2 else acc) none

/-- Exceptions that can escape the embedded handlers. -/
inductive PyError where
  | keyErrorAutologin
  | keyErrorCookieDict
  | typeErrorNoneIter
  | jsonDecodeError
  | keyErrorStatus
deriving DecidableEq

/-- Outcome of AutologinMiddleware.process_request: return None and let the
(possibly mutated) request proceed, raise IgnoreRequest, or return the login
service request in its place. -/
inductive OutRes where
  | forward (r : Request)
  | ignore
  | login (r : Request)
deriving DecidableEq

/-- Outcome of AutologinMiddleware.process_response: pass the response on,
replace it with a retry request, raise IgnoreRequest, or replace it with a
login service request. -/
inductive InRes where
  | response
  | retry (r : Request)
  | ignore
  | login (r : Request)
deriving DecidableEq

/-- A call into the crawl engine (self.crawler.engine.crawl). -/
inductive Effect where
  | crawl (r : Request)
deriving DecidableEq

/-- The JSON text of a login service response: unparsable, parsable but
without a status field, or a body with a status string and an optional cookie
list (dict.get of key cookies). -/
inductive LoginText where
  | malformed
  | noStatus
  | body (status : String) (cookies : Option (List RawCookie))
deriving DecidableEq

/-- Mutable state of AutologinMiddleware together with its configuration, as
set up by AutologinMiddleware.__init__. -/
structure AutologinMiddleware where
  autologin_url : String
  splash_url : Option String := none
  login_url : Option String := none
  username : Option String := none
  password : Option String := none
  user_agent : Option String := none
  autologin_download_delay : Option String := none
  logout_url : Option String := none
  force_skip : Bool := false
  queue : List Request := []
  waiting_for_login : Bool := false
  auth_cookies : Option (List RawCookie) := none
  skipped : Bool := false
  logged_in : Bool := false
deriving DecidableEq

/-- Settings read by AutologinMiddleware.__init__ from the crawler. -/
structure Settings where
  splash_url : Option String := none
  login_url : Option String := none
  username : Option String := none
  password : Option String := none
  user_agent : Option String := none
  autologin_download_delay : Option String := none
  logout_url : Option String := none
  force_skip : Bool := false
  auth_cookies : Option String := none
deriving DecidableEq

/-- Split a character list at every semicolon. -/
def splitOnSemicolon : List Char → List (List Char)
  | [] => [[]]
  | c :: cs =>
    let r := splitOnSemicolon cs
    if c = ';' then [] :: r
    else
      match r with
      | [] => [[c]]
      | h :: t => (c :: h) :: t

/-- Drop whitespace from both ends of a character list. -/
def trimChars (l : List Char) : List Char :=
  ((l.dropWhile Char.isWhitespace).reverse.dropWhile Char.isWhitespace).reverse

/-- Split a character list at its first equals sign, when one occurs. -/
def splitAtEq : List Char → Option (List Char × List Char)
  | [] => none
  | c :: cs =>
    if c = '=' then some ([], cs)
    else
      match splitAtEq cs with
      | none => none
      | some p => some (c :: p.1, p.2)

/-- Model of http.cookies.SimpleCookie parsing restricted to plain
name=value; name2=value2 strings as documented for the AUTH_COOKIES setting:
split on semicolons, trim whitespace, split each part at its first equals
sign; parts without an equals sign are dropped. -/
def parseCookieString (s : String) : List (String × String) :=
  (splitOnSemicolon s.data).filterMap fun part =>
    let t := trimChars part
    if t = [] then none
    else
      match splitAtEq t with
      | none => none
      | some p => some (String.mk p.1, String.mk p.2)

/-- Simplified model of urllib.parse.urljoin covering the shapes used by the
source: an absolute reference replaces the base, an absolute path replaces
everything after the authority, and a relative reference replaces the last
path segment. -/
def urljoin (base rel : String) : String :=
  if rel = "" then base
  else if (rel.splitOn "://").length ≥ 2 then rel
  else
    match base.splitOn "://" with
    | [sch, rest] =>
      let segs := rest.splitOn "/"
      if rel.startsWith "/" then sch ++ "://" ++ segs.headD "" ++ rel
      else if segs.length ≤ 1 then sch ++ "://" ++ segs.headD "" ++ "/" ++ rel
      else sch ++ "://" ++ String.intercalate "/" (segs.dropLast ++ [rel])
    | _ => rel

/-- Normalization of login service cookies, from _cookies_to_har: keep only
the documented attributes, defaulting path to the root path and domain to the
empty string exactly when the field is absent (dict.get with a default). -/
def cookies_to_har (cookies : List RawCookie) : List RawCookie :=
  cookies.map fun c =>
    { name := c.name
      value := c.value
      path := some (c.path.getD "/")
      domain := some (c.domain.getD "")
      extra := [] }

namespace AutologinMiddleware

/-- Construction from settings, from AutologinMiddleware.__init__: a truthy
AUTH_COOKIES string seeds auth_cookies (records with only name and value) and
sets logged_in. -/
def init (autologin_url : String) (s : Settings) : AutologinMiddleware :=
  let base : AutologinMiddleware :=
    { autologin_url := autologin_url
      splash_url := s.splash_url
      login_url := s.login_url
      username := s.username
      password := s.password
      user_agent := s.user_agent
      autologin_download_delay := s.autologin_download_delay
      logout_url := s.logout_url
      force_skip := s.force_skip }
  match s.auth_cookies with
  | some str =>
    if str = "" then base
    else
      { base with
        auth_cookies := some ((parseCookieString str).map fun p =>
          { name := p.1, value := p.2 })
        logged_in := true }
  | none => base

/-- The login service request built by _login_request: POST to the
login-cookies endpoint, carrying the parameters as body, de-duplication
disabled, priority request with the skip_autologin meta flag and the
response callback attached. -/
def mkLoginRequest (self : AutologinMiddleware) (url : String) : Request :=
  { url := urljoin self.autologin_url "/login-cookies"
    cookies := []
    dontFilter := true
    hasCallback := true
    metaSkip := true
    metaActive := none
    body := some
      { url := match self.login_url with
          | some lu => urljoin url lu
          | none => url
        username := self.username
        password := self.password
        splash_url := self.splash_url
        robots_obey := false
        user_agent := self.user_agent
        download_delay := self.autologin_download_delay }
    metaAutologin := none }

/-- AutologinMiddleware._login_request: set the waiting_for_login guard and
produce the login service request. -/
def login_request (self : AutologinMiddleware) (url : String) :
    AutologinMiddleware × Request :=
  ({ self with waiting_for_login := true }, self.mkLoginRequest url)

/-- Truthy logout_url setting that occurs as a substring of the url
(Python: self.logout_url and self.logout_url in request.url), substring
tested via splitOn. -/
def logoutHit (self : AutologinMiddleware) (url : String) : Bool :=
  match self.logout_url with
  | some s => if s = "" then false else (url.splitOn s).length ≥ 2
  | none => false

/-- AutologinMiddleware.process_request. -/
def process_request (self : AutologinMiddleware) (request : Request) :
    AutologinMiddleware × OutRes :=
  if request.metaAutologin.isSome || request.metaSkip then
    (self, .forward request)
  else if self.skipped then
    (self, .forward { request with metaActive := some false })
  else if self.logged_in then
    let request1 : Request := { request with metaActive := some true }
    if self.logoutHit request.url then (self, .ignore)
    else
      let req_copy : BaseRequest :=
        { request1.toBaseRequest with hasCallback := false }
      match self.auth_cookies with
      | some auth =>
        if auth.isEmpty then
          (self, .forward { request1 with
            metaAutologin := some { request := req_copy } })
        else
          (self, .forward { request1 with
            cookies := auth
            metaAutologin := some
              { request := req_copy
                cookie_dict := some (auth.map fun c => (c.name, c.value)) } })
      | none =>
        (self, .forward { request1 with
          metaAutologin := some { request := req_copy } })
  else
    let self1 := { self with queue := self.queue ++ [request] }
    if self1.waiting_for_login then (self1, .ignore)
    else
      let p := self1.login_request request.url
      (p.1, .login p.2)

/-- AutologinMiddleware.is_logout: when auth_cookies is truthy and the
response has a cookiejar attribute that is not None, report whether some auth
cookie with a non-empty value has its name missing among the response cookies
with non-empty values; in every other case the Python function falls through
and returns the falsy None. -/
def is_logout (self : AutologinMiddleware) (response : Response) : Bool :=
  match self.auth_cookies, response.cookiejar with
  | some auth, some jar =>
    if auth.isEmpty then false
    else
      let auth_names := (auth.filter fun c => c.value != "").map RawCookie.name
      let response_names := (jar.filter fun m => m.value != "").map Morsel.name
      auth_names.any fun n => !(response_names.contains n)
  | _, _ => false

/-- Retry request built in process_response: a copy of the stored snapshot
with de-duplication disabled. -/
def retryOf (b : BaseRequest) : Request :=
  { toBaseRequest := { b with dontFilter := true }, metaAutologin := none }

/-- AutologinMiddleware.process_response.  Missing meta keys raise KeyError;
iterating auth_cookies of None would raise TypeError (unreachable because
is_logout already requires a truthy cookie list). -/
def process_response (self : AutologinMiddleware) (request : Request)
    (response : Response) : Except PyError (AutologinMiddleware × InRes) :=
  if self.is_logout response then
    match request.metaAutologin with
    | none => .error .keyErrorAutologin
    | some am =>
      let retryreq := retryOf am.request
      match am.cookie_dict with
      | none => .error .keyErrorCookieDict
      | some cd =>
        match self.auth_cookies with
        | none => .error .typeErrorNoneIter
        | some auth =>
          if auth.any fun c => decide (dictGet cd c.name ≠ some c.value) then
            .ok (self, .retry retryreq)
          else if self.waiting_for_login then
            .ok ({ self with queue := self.queue ++ [retryreq] }, .ignore)
          else
            let p := self.login_request response.url
            .ok (p.1, .login p.2)
  else .ok (self, .response)

/-- AutologinMiddleware._process_queue: crawl every queued request with its
de-duplication marker cleared, in queue order, and empty the queue. -/
def process_queue (self : AutologinMiddleware) :
    AutologinMiddleware × List Effect :=
  ({ self with queue := [] },
   self.queue.map fun r => .crawl { r with dontFilter := true })

/-- AutologinMiddleware._on_login_response: the waiting_for_login guard is
cleared first; then the body is parsed (json.loads and the status lookup may
raise), the debug override may force skipped, a pending status re-issues the
login request, and every other status updates the session and drains the
queue. -/
def on_login_response (self : AutologinMiddleware) (url : String)
    (text : LoginText) : AutologinMiddleware × Except PyError (List Effect) :=
  let self0 := { self with waiting_for_login := false }
  match text with
  | .malformed => (self0, .error .jsonDecodeError)
  | .noStatus => (self0, .error .keyErrorStatus)
  | .body st cks =>
    let status := if self0.force_skip then "skipped" else st
    if status = "pending" then
      let p := self0.login_request url
      (p.1, .ok [.crawl p.2])
    else
      let self1 :=
        if status = "skipped" ∨ status = "error" then
          { self0 with auth_cookies := none, skipped := true }
        else if status = "solved" then
          match cks with
          | some cs =>
            if cs.isEmpty then { self0 with auth_cookies := none, skipped := true }
            else { self0 with
              auth_cookies := some (cookies_to_har cs)
              logged_in := true }
          | none => { self0 with auth_cookies := none, skipped := true }
        else self0
      let q := self1.process_queue
      (q.1, .ok q.2)

end AutologinMiddleware

/-- An event delivered by the crawl engine to the middleware: an outbound
request entering process_request or a response (with its originating request)
entering process_response. -/
inductive Event where
  | outbound (r : Request)
  | inbound (req : Request) (resp : Response)

/-- Observable outcome of one event. -/
inductive Outcome where
  | out (res : OutRes)
  | inb (res : Except PyError InRes)

/-- Deliver a single event; a raised exception leaves the state unchanged
(process_response mutates nothing before its raises). -/
def stepEvent (self : AutologinMiddleware) (e : Event) :
    AutologinMiddleware × Outcome :=
  match e with
  | .outbound r =>
    let p := self.process_request r
    (p.1, .out p.2)
  | .inbound req resp =>
    match self.process_response req resp with
    | .ok p => (p.1, .inb (.ok p.2))
    | .error err => (self, .inb (.error err))

/-- Deliver a sequence of events one at a time, as the single-threaded crawl
engine does, collecting the outcomes. -/
def runEvents (self : AutologinMiddleware) :
    List Event → AutologinMiddleware × List Outcome
  | [] => (self, [])
  | e :: es =>
    let p := stepEvent self e
    let q := runEvents p.1 es
    (q.1, p.2 :: q.2)

/-- A request that carries neither the envelope nor the skip marker: the
shape of an ordinary spider request entering the gate. -/
def PlainRequest (r : Request) : Prop :=
  r.metaAutologin = none ∧ r.metaSkip = false

/-- Outcome the gate produces for every event while the session is skipped:
ordinary requests are forwarded annotated as session-inactive and every
response is accepted. -/
def skippedOutcome : Event → Outcome
  | .outbound r => .out (.forward { r with metaActive := some false })
  | .inbound _ _ => .inb (.ok .response)

/-- Event whose outbound requests are plain spider requests without cookies;
inbound events are unrestricted. -/
def PlainEvent : Event → Prop
  | .outbound r => PlainRequest r ∧ r.cookies = []
  | .inbound _ _ => True

/-- Logout predicate following the specification's words literally, for
comparison with the source's is_logout: here a response cookie counts as
present whenever its name occurs in the cookiejar, regardless of its value. -/
def is_logout_per_spec (self : AutologinMiddleware) (response : Response) : Bool :=
  match self.auth_cookies, response.cookiejar with
  | some auth, some jar =>
    !auth.isEmpty && auth.any fun c =>
      (c.value != "") && !((jar.map Morsel.name).contains c.name)
  | _, _ => false

/-- Staleness predicate following the specification's words literally, for
comparison with the source's check: here the quantification runs over the
names of the envelope's cookie snapshot, looking them up in the current
session cookies. -/
def stale_per_spec (cookieSnapshot : List (String × String))
    (currentCookies : List RawCookie) : Bool :=
  cookieSnapshot.any fun p =>
    decide (dictGet (currentCookies.map fun c => (c.name, c.value)) p.1 ≠ some p.2)

/-! Concrete sample instances used by witnesses and counterexamples. -/

/-- Settings seeding the session from a manual auth-cookies string. -/
def seedSettings : Settings := { auth_cookies := some "a=1; b=2" }

/-- Middleware constructed from the seeded settings. -/
def seedMW : AutologinMiddleware :=
  AutologinMiddleware.init "http://autologin.local" seedSettings

/-- A first plain outbound request. -/
def firstReq : Request := { url := "http://site.example/start" }

/-- Logged-in middleware holding one session cookie. -/
def mwSess : AutologinMiddleware :=
  { autologin_url := "http://autologin.local"
    auth_cookies := some [{ name := "sess", value := "abc" }]
    logged_in := true }

/-- Same state with a login attempt outstanding. -/
def mwWaitSess : AutologinMiddleware := { mwSess with waiting_for_login := true }

/-- A response whose cookiejar holds the session cookie name with an empty
value. -/
def respEmptyValued : Response :=
  { url := "http://site.example/p"
    cookiejar := some [{ name := "sess", value := "" }] }

/-- A response with an empty cookiejar, on which logout is detected. -/
def respLogout : Response :=
  { url := "http://site.example/p", cookiejar := some [] }

/-- A plain request without the autologin envelope. -/
def reqPlain : Request := { url := "http://site.example/p" }

/-- Snapshot of a request dispatched under the sess cookie. -/
def snapC : BaseRequest := { url := "http://site.example/page", metaActive := some true }

/-- The corresponding annotated in-flight request. -/
def reqC : Request :=
  { url := "http://site.example/page"
    cookies := [{ name := "sess", value := "abc" }]
    metaActive := some true
    metaAutologin := some { request := snapC, cookie_dict := some [("sess", "abc")] } }

/-- Current session cookies after a later re-login added cookie b. -/
def authTwo : List RawCookie :=
  [{ name := "a", value := "1" }, { name := "b", value := "2" }]

/-- Logged-in middleware holding the two current cookies. -/
def mwTwo : AutologinMiddleware :=
  { autologin_url := "http://autologin.local"
    auth_cookies := some authTwo
    logged_in := true }

/-- Snapshot of a request dispatched when only cookie a existed. -/
def snapA : BaseRequest := { url := "http://site.example/q", metaActive := some true }

/-- The corresponding annotated in-flight request, whose snapshot mapping
agrees with the current session on every name it contains. -/
def reqA : Request :=
  { url := "http://site.example/q"
    metaActive := some true
    metaAutologin := some { request := snapA, cookie_dict := some [("a", "1")] } }

/-- Plain outbound requests for the single-flight scenario. -/
def reqP1 : Request := { url := "http://site.example/1" }

/-- Second plain outbound request. -/
def reqP2 : Request := { url := "http://site.example/2" }

/-- Third plain outbound request. -/
def reqP3 : Request := { url := "http://site.example/3" }

/-- Middleware in the anonymous initial state. -/
def mwAnon : AutologinMiddleware := { autologin_url := "http://autologin.local" }

/-- Middleware with two held requests and an attempt outstanding. -/
def mwQueued : AutologinMiddleware :=
  { autologin_url := "http://autologin.local"
    queue := [reqP2, reqP3]
    waiting_for_login := true }

/-- Middleware in the terminal skipped state. -/
def mwSkip : AutologinMiddleware :=
  { autologin_url := "http://autologin.local", skipped := true }

end Undercrawler

namespace Undercrawler

/-! Helper lemmas. -/

/-- While a login attempt is outstanding and the session is neither skipped
nor logged in, every plain outbound request is appended to the queue and
dropped, and no further login request is produced. -/
theorem runEvents_outbound_while_waiting (self : AutologinMiddleware)
    (rs : List Request) (hw : self.waiting_for_login = true)
    (hs : self.skipped = false) (hl : self.logged_in = false)
    (hp : ∀ r ∈ rs, PlainRequest r) :
    runEvents self (rs.map Event.outbound) =
      ({ self with queue := self.queue ++ rs }, rs.map fun _ => Outcome.out .ignore) := by
  induction rs generalizing self with
  | nil => simp [runEvents]
  | cons r rs ih =>
    obtain ⟨h1, h2⟩ := hp r (by simp)
    have hstep : stepEvent self (.outbound r) =
        ({ self with queue := self.queue ++ [r] }, .out .ignore) := by
      simp [stepEvent, AutologinMiddleware.process_request, h1, h2, hs, hl, hw]
    have ih2 := ih { self with queue := self.queue ++ [r] } hw hs hl
      (fun q hq => hp q (by simp [hq]))
    simp only [List.map_cons, runEvents, hstep, ih2]
    simp [List.append_assoc]

/-! Claim theorems. -/

/-- C1 (amended): on a response with a fresh (non-stale) logout, when a login
attempt is outstanding the snapshot is enqueued, with de-duplication
disabled, exactly once at the end of the pending queue and the response
dropped; when no attempt is outstanding the response is replaced by a login
request for the response's URL, the guard is set, and the queue, where the
triggering request is NOT captured, is left unchanged. -/
theorem fresh_logout_branches (self : AutologinMiddleware) (request : Request)
    (response : Response) (snap : BaseRequest) (cd : List (String × String))
    (auth : List RawCookie)
    (hlog : self.is_logout response = true)
    (hm : request.metaAutologin = some { request := snap, cookie_dict := some cd })
    (hauth : self.auth_cookies = some auth)
    (hfresh : (auth.any fun c => decide (dictGet cd c.name ≠ some c.value)) = false) :
    (self.waiting_for_login = true →
      self.process_response request response =
        .ok ({ self with queue := self.queue ++ [AutologinMiddleware.retryOf snap] },
          .ignore)) ∧
    (self.waiting_for_login = false →
      self.process_response request response =
        .ok ({ self with waiting_for_login := true },
          .login (self.mkLoginRequest response.url))) := by
  have hall : ∀ x ∈ auth, dictGet cd x.name = some x.value := by
    intro x hx
    by_contra hne
    rw [List.any_eq_true.mpr ⟨x, hx, decide_eq_true hne⟩] at hfresh
    exact Bool.true_eq_false.mp hfresh
  constructor <;> intro hw <;>
    simp [AutologinMiddleware.process_response, AutologinMiddleware.login_request,
      hlog, hm, hauth, hfresh, hall, hw] <;>
    exact hall

/-- C1 (witness): with the attempt outstanding, the snapshot of the
logged-out request is enqueued and the response dropped. -/
theorem fresh_logout_branches_witness :
    mwWaitSess.process_response reqC respLogout =
      .ok ({ mwWaitSess with
        queue := mwWaitSess.queue ++ [AutologinMiddleware.retryOf snapC] }, .ignore) :=
  (fresh_logout_branches mwWaitSess reqC respLogout snapC [("sess", "abc")]
    [{ name := "sess", value := "abc" }] rfl rfl rfl rfl).1 rfl

/-- C1 (counterexample): on a fresh logout with no attempt outstanding, the
intercepted request is dropped rather than retried: the response is replaced
by the login-service request (a skip-marked POST carrying the login body, not
the snapshot) and the queue stays empty, so the affected request is not
retried at all, contradicting the claim that every affected request is
retried exactly once and none is lost. -/
theorem fresh_logout_first_discoverer_not_retried :
    mwSess.is_logout respLogout = true ∧
    mwSess.waiting_for_login = false ∧
    mwSess.process_response reqC respLogout =
      .ok ({ mwSess with waiting_for_login := true },
        .login (mwSess.mkLoginRequest respLogout.url)) ∧
    ({ mwSess with waiting_for_login := true } : AutologinMiddleware).queue = [] ∧
    (mwSess.mkLoginRequest respLogout.url).metaSkip = true ∧
    (mwSess.mkLoginRequest respLogout.url).body.isSome = true ∧
    snapC.body = none :=
  ⟨rfl, rfl, rfl, rfl, rfl, rfl, rfl⟩

/-- C2: for any nonempty batch of plain requests submitted while the session
is anonymous, the first request sets the guard and produces the single login
request, every later request is enqueued and dropped, and all of them end up
on the queue in order. -/
theorem single_flight_login (self : AutologinMiddleware) (r : Request)
    (rs : List Request) (hl : self.logged_in = false) (hs : self.skipped = false)
    (hw : self.waiting_for_login = false)
    (hp : ∀ q ∈ r :: rs, PlainRequest q) :
    runEvents self ((r :: rs).map Event.outbound) =
      ({ self with queue := self.queue ++ (r :: rs), waiting_for_login := true },
        Outcome.out (.login (self.mkLoginRequest r.url)) ::
          rs.map fun _ => Outcome.out .ignore) := by
  obtain ⟨h1, h2⟩ := hp r (by simp)
  have hstep : stepEvent self (.outbound r) =
      ({ self with queue := self.queue ++ [r], waiting_for_login := true },
        .out (.login (self.mkLoginRequest r.url))) := by
    simp [stepEvent, AutologinMiddleware.process_request,
      AutologinMiddleware.login_request, AutologinMiddleware.mkLoginRequest,
      h1, h2, hs, hl, hw]
  have ih := runEvents_outbound_while_waiting
    { self with queue := self.queue ++ [r], waiting_for_login := true }
    rs rfl hs hl (fun q hq => hp q (by simp [hq]))
  simp only [List.map_cons, runEvents, hstep, ih]
  simp [List.append_assoc]

/-- C2 (witness): three anonymous submissions produce exactly one login
request followed by two drops, with all three requests queued. -/
theorem single_flight_login_witness :
    runEvents mwAnon ([reqP1, reqP2, reqP3].map Event.outbound) =
      ({ mwAnon with
          queue := mwAnon.queue ++ [reqP1, reqP2, reqP3]
          waiting_for_login := true },
        Outcome.out (.login (mwAnon.mkLoginRequest reqP1.url)) ::
          [reqP2, reqP3].map fun _ => Outcome.out .ignore) :=
  single_flight_login mwAnon reqP1 [reqP2, reqP3] rfl rfl rfl
    (by
      intro q hq
      simp only [List.mem_cons, List.not_mem_nil, or_false] at hq
      rcases hq with rfl | rfl | rfl <;> exact ⟨rfl, rfl⟩)

end Undercrawler

namespace Undercrawler

/-- C3 (amended): under a detected logout with envelope and cookie_dict
present, the response is replaced by a forced re-dispatch of the stored
snapshot, with de-duplication bypassed and the middleware state untouched (in
particular no login attempt issued), exactly when some cookie of the current
session cookies has a name that the snapshot mapping lacks or binds to a
different value. -/
theorem stale_retry_iff (self : AutologinMiddleware) (request : Request)
    (response : Response) (snap : BaseRequest) (cd : List (String × String))
    (auth : List RawCookie)
    (hlog : self.is_logout response = true)
    (hm : request.metaAutologin = some { request := snap, cookie_dict := some cd })
    (hauth : self.auth_cookies = some auth) :
    self.process_response request response =
        .ok (self, .retry (AutologinMiddleware.retryOf snap)) ↔
      (auth.any fun c => decide (dictGet cd c.name ≠ some c.value)) = true := by
  by_cases hst : (auth.any fun c => decide (dictGet cd c.name ≠ some c.value)) = true
  · have hst2 : ∃ x ∈ auth, dictGet cd x.name ≠ some x.value := by
      simpa using hst
    simp [AutologinMiddleware.process_response, hlog, hm, hauth, hst, hst2]
  · have hall : ∀ x ∈ auth, dictGet cd x.name = some x.value := by
      intro x hx
      by_contra hne
      exact hst (List.any_eq_true.mpr ⟨x, hx, decide_eq_true hne⟩)
    by_cases hw : self.waiting_for_login <;>
      simp [AutologinMiddleware.process_response, AutologinMiddleware.login_request,
        hlog, hm, hauth, hst, hall, hw]

/-- C3 (witness): a snapshot missing the current cookie b is classified
stale and re-dispatched without a login attempt. -/
theorem stale_retry_iff_witness :
    mwTwo.process_response reqA respLogout =
      .ok (mwTwo, .retry (AutologinMiddleware.retryOf snapA)) :=
  (stale_retry_iff mwTwo reqA respLogout snapA [("a", "1")] authTwo rfl rfl rfl).mpr rfl

/-- C3 (counterexample): a request whose snapshot mapping agrees with the
current session on every name the snapshot contains is nevertheless
classified stale, because the source quantifies over the current cookies,
where the extra cookie b is missing from the snapshot: the claim's
snapshot-side staleness predicate is false, yet the gate re-dispatches the
snapshot instead of issuing the login attempt the claim would require. -/
theorem staleness_direction_counterexample :
    stale_per_spec [("a", "1")] authTwo = false ∧
    mwTwo.is_logout respLogout = true ∧
    mwTwo.waiting_for_login = false ∧
    mwTwo.process_response reqA respLogout =
      .ok (mwTwo, .retry (AutologinMiddleware.retryOf snapA)) :=
  ⟨rfl, rfl, rfl, rfl⟩

/-- C4 (amended): is_logout is true exactly when the session holds a
non-empty cookie list, the response exposes a cookiejar, and some session
cookie with non-empty value has a name that is absent among the names of the
response cookies with non-empty value; in particular it is false whenever the
cookiejar is absent. -/
theorem is_logout_characterization (self : AutologinMiddleware)
    (response : Response) :
    self.is_logout response = true ↔
      ∃ auth jar, self.auth_cookies = some auth ∧ response.cookiejar = some jar ∧
        auth ≠ [] ∧ ∃ c ∈ auth, c.value ≠ "" ∧
          c.name ∉ (jar.filter fun m => m.value != "").map Morsel.name := by
  unfold AutologinMiddleware.is_logout
  cases ha : self.auth_cookies with
  | none => simp
  | some auth =>
    cases hj : response.cookiejar with
    | none => simp
    | some jar =>
      simp [List.any_eq_true, List.isEmpty_iff, List.mem_map, List.mem_filter,
        bne_iff_ne, List.elem_eq_mem]
      intro _hne
      constructor
      · rintro ⟨a, ⟨h1, h2⟩, h3⟩
        exact ⟨a, h1, h2, h3⟩
      · rintro ⟨a, h1, h2, h3⟩
        exact ⟨a, ⟨h1, h2⟩, h3⟩

/-- C4 (counterexample): a response whose cookiejar contains the session
cookie's name with an empty value is treated as a logout by the source,
although the claim's literal reading, where the name is present in the
response's cookie set, requires false. -/
theorem is_logout_empty_value_counterexample :
    mwSess.is_logout respEmptyValued = true ∧
    is_logout_per_spec mwSess respEmptyValued = false :=
  ⟨rfl, rfl⟩

/-- C5: on a terminal login resolution (solved, skipped or error, after the
debug override) every queued request is re-submitted exactly once, in queue
order, with de-duplication disabled, and the queue is emptied; on a pending
resolution the queue is untouched and the only effect is the re-issued login
request. -/
theorem queue_drain_on_resolution (self : AutologinMiddleware) (url st : String)
    (cks : Option (List RawCookie)) :
    ((if self.force_skip then "skipped" else st) = "solved" ∨
     (if self.force_skip then "skipped" else st) = "skipped" ∨
     (if self.force_skip then "skipped" else st) = "error" →
      (self.on_login_response url (.body st cks)).1.queue = [] ∧
      (self.on_login_response url (.body st cks)).2 =
        .ok (self.queue.map fun r => Effect.crawl { r with dontFilter := true })) ∧
    ((if self.force_skip then "skipped" else st) = "pending" →
      (self.on_login_response url (.body st cks)).1.queue = self.queue ∧
      (self.on_login_response url (.body st cks)).2 =
        .ok [.crawl (self.mkLoginRequest url)]) := by
  have tsp : ("skipped" : String) ≠ "pending" := by decide
  have tvp : ("solved" : String) ≠ "pending" := by decide
  have tep : ("error" : String) ≠ "pending" := by decide
  have tvs : ¬(("solved" : String) = "skipped" ∨ ("solved" : String) = "error") := by
    decide
  by_cases hf : self.force_skip
  · constructor
    · intro _
      simp [AutologinMiddleware.on_login_response,
        AutologinMiddleware.process_queue, hf, tsp]
    · intro h
      rw [if_pos hf] at h
      exact absurd h tsp
  · rw [Bool.not_eq_true] at hf
    constructor
    · intro hd
      simp only [hf, if_false, Bool.false_eq_true] at hd
      rcases hd with h | h | h <;> subst h
      · rcases cks with _ | cs
        · simp [AutologinMiddleware.on_login_response,
            AutologinMiddleware.process_queue, hf, tvp, tvs]
        · by_cases he : cs.isEmpty <;>
            simp [AutologinMiddleware.on_login_response,
              AutologinMiddleware.process_queue, hf, tvp, tvs, he]
      · simp [AutologinMiddleware.on_login_response,
          AutologinMiddleware.process_queue, hf, tsp]
      · simp [AutologinMiddleware.on_login_response,
          AutologinMiddleware.process_queue, hf, tep]
    · intro h
      simp only [hf, if_false, Bool.false_eq_true] at h
      subst h
      simp [AutologinMiddleware.on_login_response,
        AutologinMiddleware.login_request, AutologinMiddleware.mkLoginRequest, hf]

/-- C5 (witness): a solved resolution without cookies drains the two held
requests, in order and with de-duplication disabled, leaving the queue
empty. -/
theorem queue_drain_on_resolution_witness :
    (mwQueued.on_login_response "http://site.example/1" (.body "solved" none)).1.queue
        = [] ∧
    (mwQueued.on_login_response "http://site.example/1" (.body "solved" none)).2 =
      .ok (mwQueued.queue.map fun r => Effect.crawl { r with dontFilter := true }) :=
  (queue_drain_on_resolution mwQueued "http://site.example/1" "solved" none).1
    (Or.inl rfl)

/-- C6: once the session is skipped (with its cookies cleared, as every
transition into the skipped state does), any sequence of plain outbound
requests and arbitrary responses leaves the state exactly unchanged, logout
is never detected, no outcome carries a login request, and every outbound
request is forwarded annotated session-inactive and without cookies. -/
theorem skipped_is_terminal (self : AutologinMiddleware) (events : List Event)
    (hs : self.skipped = true) (ha : self.auth_cookies = none)
    (hp : ∀ e ∈ events, PlainEvent e) :
    runEvents self events = (self, events.map skippedOutcome) ∧
    (∀ resp : Response, self.is_logout resp = false) ∧
    (∀ e ∈ events, ∀ lr : Request,
      skippedOutcome e ≠ .out (.login lr) ∧
      skippedOutcome e ≠ .inb (.ok (.login lr))) ∧
    (∀ r : Request, Event.outbound r ∈ events →
      ∃ fwd : Request, skippedOutcome (.outbound r) = .out (.forward fwd) ∧
        fwd.metaActive = some false ∧ fwd.cookies = []) := by
  have hlo : ∀ resp : Response, self.is_logout resp = false := by
    intro resp
    simp [AutologinMiddleware.is_logout, ha]
  have step : ∀ e, PlainEvent e → stepEvent self e = (self, skippedOutcome e) := by
    intro e he
    cases e with
    | outbound r =>
      obtain ⟨⟨h1, h2⟩, _⟩ := he
      simp [stepEvent, AutologinMiddleware.process_request, h1, h2, hs,
        skippedOutcome]
    | inbound req resp =>
      simp [stepEvent, AutologinMiddleware.process_response, hlo, skippedOutcome]
  refine ⟨?_, hlo, ?_, ?_⟩
  · induction events with
    | nil => simp [runEvents]
    | cons e es ih =>
      have h1 := step e (hp e (by simp))
      have h2 := ih (fun q hq => hp q (by simp [hq]))
      simp only [List.map_cons, runEvents, h1, h2]
  · intro e _ lr
    cases e <;> simp [skippedOutcome]
  · intro r hr
    exact ⟨_, rfl, rfl, (hp _ hr).2⟩

/-- C6 (witness): in the skipped state a plain request and a response leave
the state unchanged and produce the inactive-annotated forward and the
accepted response. -/
theorem skipped_is_terminal_witness :
    runEvents mwSkip [Event.outbound reqP1, Event.inbound reqC respLogout] =
      (mwSkip, [Event.outbound reqP1, Event.inbound reqC respLogout].map
        skippedOutcome) :=
  (skipped_is_terminal mwSkip [Event.outbound reqP1, Event.inbound reqC respLogout]
    rfl rfl
    (by
      intro e he
      simp only [List.mem_cons, List.not_mem_nil, or_false] at he
      rcases he with rfl | rfl
      · exact ⟨⟨rfl, rfl⟩, rfl⟩
      · exact trivial)).1

/-- C7: the middleware seeded with the auth-cookies string a=1; b=2 starts
logged in with exactly those two cookies in order, and its first plain
request is forwarded unchanged in state with the cookies attached, the
active annotation and the envelope, issuing no login request. -/
theorem seeded_session :
    seedMW.logged_in = true ∧ seedMW.skipped = false ∧
    seedMW.waiting_for_login = false ∧
    seedMW.auth_cookies =
      some [{ name := "a", value := "1" }, { name := "b", value := "2" }] ∧
    seedMW.process_request firstReq =
      (seedMW, .forward
        { url := "http://site.example/start"
          cookies := [{ name := "a", value := "1" }, { name := "b", value := "2" }]
          metaActive := some true
          metaAutologin := some
            { request := { url := "http://site.example/start", metaActive := some true }
              cookie_dict := some [("a", "1"), ("b", "2")] } }) :=
  ⟨rfl, rfl, rfl, rfl, rfl⟩

/-- C8: normalization keeps exactly the four documented fields, producing
explicit path and domain values and an empty remainder for every record, and
is idempotent. -/
theorem normalize_fields_idempotent (x : List RawCookie) :
    (∀ c ∈ cookies_to_har x,
      c.extra = [] ∧ (∃ p, c.path = some p) ∧ ∃ d, c.domain = some d) ∧
    cookies_to_har (cookies_to_har x) = cookies_to_har x := by
  constructor
  · intro c hc
    simp only [cookies_to_har, List.mem_map] at hc
    obtain ⟨a, _, rfl⟩ := hc
    exact ⟨rfl, ⟨_, rfl⟩, ⟨_, rfl⟩⟩
  · simp [cookies_to_har, List.map_map, Function.comp]

/-- C9: when logout is detected but the originating request lacks the
envelope, or its envelope lacks the cookie_dict entry, process_response
raises a KeyError instead of producing a gate outcome. -/
theorem missing_envelope_keyerror (self : AutologinMiddleware) (request : Request)
    (response : Response) (hlog : self.is_logout response = true)
    (hmiss : request.metaAutologin = none ∨
      ∃ snap, request.metaAutologin = some { request := snap, cookie_dict := none }) :
    self.process_response request response = .error .keyErrorAutologin ∨
    self.process_response request response = .error .keyErrorCookieDict := by
  rcases hmiss with h | ⟨snap, h⟩
  · left
    simp [AutologinMiddleware.process_response, hlog, h]
  · right
    simp [AutologinMiddleware.process_response, hlog, h]

/-- C9 (witness): a plain request without the envelope makes the handler
raise on a logout response. -/
theorem missing_envelope_keyerror_witness :
    mwSess.process_response reqPlain respLogout = .error .keyErrorAutologin ∨
    mwSess.process_response reqPlain respLogout = .error .keyErrorCookieDict :=
  missing_envelope_keyerror mwSess reqPlain respLogout rfl (Or.inl rfl)

/-- C10: on an unparsable body or one without a status field, the handler
has already cleared the waiting_for_login guard when it raises, and the
queue is left exactly as it was, undrained. -/
theorem login_guard_cleared_before_parse (self : AutologinMiddleware)
    (url : String) (t : LoginText) (hbad : t = .malformed ∨ t = .noStatus) :
    (self.on_login_response url t).1 = { self with waiting_for_login := false } ∧
    (self.on_login_response url t).1.queue = self.queue ∧
    ∃ e, (self.on_login_response url t).2 = .error e := by
  rcases hbad with h | h <;> subst h <;> exact ⟨rfl, rfl, _, rfl⟩

/-- C10 (witness): a malformed body leaves the guard cleared, the queue
held, and the error raised. -/
theorem login_guard_cleared_before_parse_witness :
    (mwQueued.on_login_response "http://site.example/1" .malformed).1 =
      { mwQueued with waiting_for_login := false } ∧
    (mwQueued.on_login_response "http://site.example/1" .malformed).1.queue =
      mwQueued.queue ∧
    ∃ e, (mwQueued.on_login_response "http://site.example/1" .malformed).2 =
      .error e :=
  login_guard_cleared_before_parse mwQueued "http://site.example/1" .malformed
    (Or.inl rfl)

end Undercrawler
